import Mathlib

/-!
Verification development for the Isaac Sim multi-instance orchestration layer
(`app/config.py`, `app/docker_manager.py`).  The Python source is shallowly
embedded: pure computations become Lean functions, the Docker engine becomes an
explicit state (one state type per access mode), raised exceptions become
`Except` errors, and every engine interaction performed by an operation is
recorded in an explicit call trace.
-/

set_option maxHeartbeats 1000000
set_option maxRecDepth 4000

namespace Orch

/-! ## String helpers mirroring the Python primitives used by the source -/

/-- Does `pat` occur at the head of `s`?  (Helper for Python `in`.) -/
def leadsWith : List Char → List Char → Bool
  | [], _ => true
  | _ :: _, [] => false
  | a :: as, b :: bs => a == b && leadsWith as bs

/-- Does `pat` occur somewhere in `s`?  (Helper for Python `in`.) -/
def subListOf (pat : List Char) : List Char → Bool
  | [] => leadsWith pat []
  | b :: bs => leadsWith pat (b :: bs) || subListOf pat bs

/-- Python `pat in s` on strings: substring containment. -/
def strContains (s pat : String) : Bool :=
  subListOf pat.toList s.toList

/-- Join a list of lines, appending a newline after each, as `docker ps`
`--format` output does (one record per line). -/
def unlines : List String → String
  | [] => ""
  | [l] => l ++ "\n"
  | l :: l₂ :: ls => l ++ "\n" ++ unlines (l₂ :: ls)

/-- Python `' '.join cmd`. -/
def joinSpace : List String → String
  | [] => ""
  | [a] => a
  | a :: a₂ :: rest => a ++ " " ++ joinSpace (a₂ :: rest)

/-- Python `s.split()[0]`: first whitespace-delimited token. -/
def firstToken (s : String) : String :=
  String.mk (((s.toList).dropWhile (fun c => c.isWhitespace)).takeWhile
    (fun c => !c.isWhitespace))

/-- Python `s.strip()`: drop leading and trailing whitespace. -/
def pyStrip (s : String) : String :=
  String.mk (((s.toList.dropWhile (fun c => c.isWhitespace)).reverse.dropWhile
    (fun c => c.isWhitespace)).reverse)

/-- Python `s.lower()`. -/
def pyLower (s : String) : String :=
  String.mk (s.toList.map Char.toLower)

/-- Python `s[:n]`. -/
def pyTake (s : String) (n : Nat) : String :=
  String.mk (s.toList.take n)

/-! ## Python exceptions raised or caught by the source -/

/-- The exception kinds that flow through `docker_manager.py`: `ValueError`
(invalid instance id), `DockerException` (engine unavailable, CLI command
failed or timed out), `APIError` (structured-client engine failure),
`NotFound` (absent container) and `TypeError` (the `"Up" in None` slip in
`start_instance`).  Each carries its `str(e)` text. -/
inductive PyError where
  | valueError (msg : String)
  | dockerException (msg : String)
  | apiError (msg : String)
  | notFound (msg : String)
  | typeError (msg : String)
deriving DecidableEq, Repr

/-- Python `str(e)` on the exceptions above. -/
def pyErrStr : PyError → String
  | .valueError msg => msg
  | .dockerException msg => msg
  | .apiError msg => msg
  | .notFound msg => msg
  | .typeError msg => msg

/-- Is an `Except` value a success? -/
def isOkE {ε α : Type} : Except ε α → Bool
  | .ok _ => true
  | .error _ => false

deriving instance DecidableEq for Except

/-! ## `app/config.py` -/

/-- The `Settings` pydantic model of `app/config.py` (environment overrides are
out of scope; the fields and defaults are the source's). -/
structure Settings where
  max_instances : Int
  isaac_sim_image : String
  docker_network : String
  http_port_base : Int
  webrtc_port_base : Int
  native_port_base : Int
  vnc_port_base : Int
  memory_limit : String
  shm_size : String
  gpu_enabled : Bool
  enable_webrtc : Bool
deriving DecidableEq, Repr

/-- The default field values of `Settings` in `app/config.py`. -/
def defaultSettings : Settings :=
  { max_instances := 4
    isaac_sim_image := "isaac-sim-vnc:5.1.0"
    docker_network := "bridge"
    http_port_base := 8211
    webrtc_port_base := 8011
    native_port_base := 8899
    vnc_port_base := 6080
    memory_limit := "32g"
    shm_size := "4g"
    gpu_enabled := true
    enable_webrtc := true }

/-- The dictionary returned by `get_instance_ports`: one port per role. -/
structure PortMap where
  http : Int
  webrtc : Int
  native : Int
  vnc : Int
deriving DecidableEq, Repr

/-- The `ValueError` message used by `config.get_instance_ports` and by the
identifier checks in `docker_manager.py`. -/
def invalidIdMsg (s : Settings) : String :=
  "Instance ID must be between 0 and " ++ toString (s.max_instances - 1)

/-- `config.get_instance_ports`: rejects ids outside `[0, max_instances)` with
a `ValueError`, otherwise returns `base + instance_id` for each role. -/
def get_instance_ports (s : Settings) (instance_id : Int) : Except PyError PortMap :=
  if instance_id < 0 ∨ instance_id ≥ s.max_instances then
    .error (.valueError (invalidIdMsg s))
  else
    .ok { http := s.http_port_base + instance_id
          webrtc := s.webrtc_port_base + instance_id
          native := s.native_port_base + instance_id
          vnc := s.vnc_port_base + instance_id }

/-- The port mapping of a valid instance id (the value `get_instance_ports`
returns on success). -/
def portsOf (s : Settings) (instance_id : Int) : PortMap :=
  { http := s.http_port_base + instance_id
    webrtc := s.webrtc_port_base + instance_id
    native := s.native_port_base + instance_id
    vnc := s.vnc_port_base + instance_id }

/-- The four ports of a mapping, in the source's dictionary order. -/
def PortMap.toList (p : PortMap) : List Int :=
  [p.http, p.webrtc, p.native, p.vnc]

/-! ## `DockerManager` naming and container launch specification -/

/-- `self.container_prefix` in `DockerManager.__init__`. -/
def container_prefix : String := "isaac-sim-instance"

/-- `DockerManager._get_container_name`. -/
def get_container_name (instance_id : Int) : String :=
  container_prefix ++ "-" ++ toString instance_id

/-- One element of `docker.types.DeviceRequest`. -/
structure DeviceRequest where
  count : Int
  capabilities : List (List String)
deriving DecidableEq, Repr

/-- One host-to-container volume bind (`{host: {"bind": …, "mode": …}}`). -/
structure VolumeBind where
  host : String
  bind : String
  mode : String
deriving DecidableEq, Repr

/-- The dictionary built by `DockerManager._build_container_config`. -/
structure ContainerConfig where
  image : String
  name : String
  detach : Bool
  volumes : List VolumeBind
  environment : List (String × String)
  device_requests : List DeviceRequest
  network_mode : String
  runtime : String
  shm_size : String
  mem_limit : String
  remove : Bool
  auto_remove : Bool
  user : String
  command : List String
deriving DecidableEq, Repr

/-- The six volume binds derived from the per-instance host cache root. -/
def volumeBinds (base_cache_dir : String) : List VolumeBind :=
  [ ⟨base_cache_dir ++ "/cache/main", "/isaac-sim/.cache", "rw"⟩,
    ⟨base_cache_dir ++ "/cache/computecache", "/isaac-sim/.nv/ComputeCache", "rw"⟩,
    ⟨base_cache_dir ++ "/logs", "/isaac-sim/.nvidia-omniverse/logs", "rw"⟩,
    ⟨base_cache_dir ++ "/config", "/isaac-sim/.nvidia-omniverse/config", "rw"⟩,
    ⟨base_cache_dir ++ "/data", "/isaac-sim/.local/share/ov/data", "rw"⟩,
    ⟨base_cache_dir ++ "/pkg", "/isaac-sim/.local/share/ov/pkg", "rw"⟩ ]

/-- `DockerManager._build_container_config`.  The directory-creation and
ownership (`os.makedirs` / `sudo chown`) side effects are best-effort
filesystem actions with no influence on the returned dictionary and are not
modelled.  `home_dir` stands for `os.path.expanduser("~")`. -/
def build_container_config (s : Settings) (home_dir : String) (instance_id : Int) :
    Except PyError ContainerConfig := do
  let _ports ← get_instance_ports s instance_id
  let container_name := get_container_name instance_id
  let base_cache_dir := home_dir ++ "/docker/isaac-sim-" ++ toString instance_id
  let device_requests : List DeviceRequest :=
    if s.gpu_enabled then [⟨-1, [["gpu", "compute", "utility"]]⟩] else []
  let command : List String :=
    if s.enable_webrtc then
      ["/isaac-sim/start_with_vnc.sh", "./isaac-sim.sh", "--allow-root"]
    else
      ["/isaac-sim/start_with_vnc.sh", "./runheadless.sh", "-v"]
  pure
    { image := s.isaac_sim_image
      name := container_name
      detach := true
      volumes := volumeBinds base_cache_dir
      environment := [("ACCEPT_EULA", "Y"), ("PRIVACY_CONSENT", "Y"), ("DISPLAY", ":1")]
      device_requests := device_requests
      network_mode := "host"
      runtime := "nvidia"
      shm_size := s.shm_size
      mem_limit := s.memory_limit
      remove := false
      auto_remove := false
      user := "1234:1234"
      command := command }

/-! ## `DockerManager._docker_cmd`: the subprocess funnel

Every command-line engine invocation of the lifecycle operations goes through
`_docker_cmd`, which calls `subprocess.run(full_cmd, …, timeout=30)` and maps
`TimeoutExpired` / `CalledProcessError` to `DockerException`s. -/

/-- The result of `subprocess.run` as far as `_docker_cmd` observes it. -/
structure CompletedProc where
  returncode : Int
  stdout : String
  stderr : String
deriving DecidableEq, Repr

/-- What a `subprocess.run(cmd, …, timeout=t)` invocation can do. -/
inductive ProcOutcome where
  | completed (returncode : Int) (stdout stderr : String)
  | timedOut
deriving DecidableEq, Repr

/-- An abstract shell: the outcome of running a command line under a given
deadline in seconds. -/
def Shell : Type := List String → Nat → ProcOutcome

/-- The deadline `_docker_cmd` passes to `subprocess.run`. -/
def dockerCmdTimeoutSecs : Nat := 30

/-- `str(subprocess.TimeoutExpired)` mapped through `_docker_cmd`:
the `DockerException` text for a timed-out command. -/
def timeoutMsg (full_cmd : List String) : String :=
  "Docker command timed out: " ++ joinSpace full_cmd

/-- The `DockerException` text `_docker_cmd` raises for a command that exited
with a nonzero code under `check=True`. -/
def failedMsg (full_cmd : List String) (stderr : String) : String :=
  "Docker command failed: " ++ joinSpace full_cmd ++ " - " ++ stderr

/-- `DockerManager._docker_cmd`: prepend `docker`, run under the fixed
30-second deadline, raise `DockerException` on timeout, and (when `check` is
set) on nonzero exit. -/
def docker_cmd (sh : Shell) (cmd : List String) (check : Bool) :
    Except PyError CompletedProc :=
  let full_cmd := "docker" :: cmd
  match sh full_cmd dockerCmdTimeoutSecs with
  | .timedOut => .error (.dockerException (timeoutMsg full_cmd))
  | .completed rc out err =>
    if check && rc != 0 then .error (.dockerException (failedMsg full_cmd err))
    else .ok ⟨rc, out, err⟩

/-- The `DockerException` message of `_check_docker`. -/
def dockerUnavailableMsg : String :=
  "Docker is not available. Please install and start Docker service."

/-! ## Engine state, one per access mode

The engine is external state observed through `docker ps` / client calls.  The
command-line view of a container is its name plus the textual columns the
lifecycle code parses; the structured-client view is the attribute set the code
reads.  Engine-reported failures the code is written to catch or propagate
(`APIError` on start/stop/remove/run, log-retrieval failures) are modelled as
failure-injection fields of the engine state. -/

/-- One container as `docker ps -a` reports it. -/
structure CliContainer where
  name : String
  statusLine : String
  cid : String
  created : String
deriving DecidableEq, Repr

/-- Outcome of the `docker logs` invocation in `get_logs`
(`check=False`, so a nonzero exit is reported through `returncode`). -/
inductive CliLogsOutcome where
  | ok (stdout : String)
  | exitNonzero (stderr : String)
  | timedOut
deriving DecidableEq, Repr

/-- Engine state visible to the command-line fallback mode.  `freshCid` and
`freshCreated` are the id and creation time the engine will assign to the next
container created by `docker run`. -/
structure CliEngine where
  containers : List CliContainer
  logsOutcome : CliLogsOutcome
  freshCid : String
  freshCreated : String
deriving DecidableEq, Repr

/-- The `{{.Status}}` line the engine prints for a container just started. -/
def upLine : String := "Up 1 second"

/-- The `{{.Status}}` line the engine prints for a container just stopped. -/
def exitedLine : String := "Exited (0) 1 second ago"

/-- One container as the structured client reports it (`container.status`,
`container.id`, `container.attrs["Created"]`, `container.logs()`). -/
structure ClientContainer where
  name : String
  status : String
  cid : String
  created : String
  logs : String
deriving DecidableEq, Repr

/-- Engine state visible to the structured-client mode, with failure
injection: container names whose `start`/`stop`/`remove` call raises
`APIError`, whether `containers.run` raises `APIError`, and names whose log
retrieval (or UTF-8 decode) raises. -/
structure ClientEngine where
  containers : List ClientContainer
  startFailures : List String
  stopFailures : List String
  removeFailures : List String
  runFails : Bool
  logsFailures : List String
  freshCid : String
  freshCreated : String
deriving DecidableEq, Repr

/-- `client.containers.get` lookup (exact name). -/
def clientFind (eng : ClientEngine) (name : String) : Option ClientContainer :=
  eng.containers.find? (fun c => c.name == name)

/-- Engine effect of `container.start()`. -/
def clientSetStatus (eng : ClientEngine) (name st : String) : ClientEngine :=
  { eng with containers :=
      eng.containers.map (fun c => if c.name == name then { c with status := st } else c) }

/-- Engine effect of `client.containers.run(**config)`: a new running
container. -/
def clientAdd (eng : ClientEngine) (name : String) : ClientEngine :=
  { eng with containers :=
      eng.containers ++ [⟨name, "running", eng.freshCid, eng.freshCreated, ""⟩] }

/-- Engine effect of `container.remove()`. -/
def clientDelete (eng : ClientEngine) (name : String) : ClientEngine :=
  { eng with containers := eng.containers.filter (fun c => !(c.name == name)) }

/-! ## The engine calls an operation can issue (the observable trace) -/

/-- One engine interaction: either a subprocess `docker …` invocation (with
the deadline passed to `subprocess.run`) or a structured-client call. -/
inductive Call where
  | subprocessRun (args : List String) (timeoutSecs : Nat)
  | clientGet (name : String)
  | clientReload (name : String)
  | clientStart (name : String)
  | clientStop (name : String) (graceSecs : Nat)
  | clientRemove (name : String)
  | clientRun (image : String) (name : String)
  | clientLogs (name : String) (tail : Int)
deriving DecidableEq, Repr

/-- A subprocess invocation as `_docker_cmd` issues it. -/
def cliCall (args : List String) : Call :=
  .subprocessRun args dockerCmdTimeoutSecs

/-- Is this call a container-creation call (`docker run` / `containers.run`)? -/
def Call.isCreation : Call → Bool
  | .subprocessRun args _ => args.head? == some "run"
  | .clientRun _ _ => true
  | _ => false

/-- Is this call a stop or remove call? -/
def Call.isStopOrRemove : Call → Bool
  | .subprocessRun args _ => args.head? == some "stop" || args.head? == some "rm"
  | .clientStop _ _ => true
  | .clientRemove _ => true
  | _ => false

/-- Does this call mutate engine state? -/
def Call.isMutating : Call → Bool
  | .subprocessRun args _ =>
      args.head? == some "run" || args.head? == some "start" ||
      args.head? == some "stop" || args.head? == some "rm"
  | .clientStart _ => true
  | .clientStop _ _ => true
  | .clientRemove _ => true
  | .clientRun _ _ => true
  | _ => false

/-- Does a subprocess call carry the fixed 30-second deadline?
(`true` for client calls, which have no subprocess deadline.) -/
def Call.cliTimeout30 : Call → Bool
  | .subprocessRun _ t => t == 30
  | _ => true

/-! ## CLI helpers (`_container_exists`, `_get_container_status`, …) -/

/-- The containers a `docker ps -a --filter name=<f>` listing reports: those
whose name contains the filter as a substring (Docker's name filter is an
unanchored match). -/
def psFilterNames (eng : CliEngine) (f : String) : List CliContainer :=
  eng.containers.filter (fun c => strContains c.name f)

/-- `DockerManager._container_exists`: list names filtered by the container
name and test `container_name in result.stdout` (substring containment). -/
def container_exists (eng : CliEngine) (name : String) : Bool × List Call :=
  (strContains (unlines ((psFilterNames eng name).map (fun c => c.name))) name,
   [cliCall ["ps", "-a", "--filter", "name=" ++ name, "--format", "\x7b\x7b.Names\x7d\x7d"]])

/-- `DockerManager._get_container_status`: first whitespace token of the
filtered `{{.Status}}` listing, lowercased; `None` when the listing is
blank. -/
def get_container_status (eng : CliEngine) (name : String) : Option String × List Call :=
  let out := unlines ((psFilterNames eng name).map (fun c => c.statusLine))
  let call := cliCall ["ps", "-a", "--filter", "name=" ++ name, "--format", "\x7b\x7b.Status\x7d\x7d"]
  (if pyStrip out ≠ "" then some (pyLower (firstToken (pyStrip out))) else none, [call])

/-- The `{{.ID}}` listing used by `get_instance_status` in CLI mode. -/
def cliPsIds (eng : CliEngine) (name : String) : String × List Call :=
  (unlines ((psFilterNames eng name).map (fun c => c.cid)),
   [cliCall ["ps", "-a", "--filter", "name=" ++ name, "--format", "\x7b\x7b.ID\x7d\x7d"]])

/-- The `docker inspect --format {{.Created}} <name>` invocation used by
`get_instance_status` in CLI mode: exact-name lookup. -/
def cliInspectCreated (eng : CliEngine) (name : String) : CompletedProc × List Call :=
  (match eng.containers.find? (fun c => c.name == name) with
   | some c => ⟨0, c.created ++ "\n", ""⟩
   | none => ⟨1, "", "Error: No such object: " ++ name⟩,
   [cliCall ["inspect", "--format", "\x7b\x7b.Created\x7d\x7d", name]])

/-- Engine effect of `docker start <name>` (`check=True`): starts the
exact-name container, or fails with the `_docker_cmd` `DockerException` when
no such container exists. -/
def cliStartCmd (eng : CliEngine) (name : String) : Except PyError CliEngine :=
  if eng.containers.any (fun c => c.name == name) then
    .ok { eng with containers :=
      eng.containers.map (fun c => if c.name == name then { c with statusLine := upLine } else c) }
  else
    .error (.dockerException (failedMsg ["docker", "start", name]
      ("Error response from daemon: No such container: " ++ name)))

/-- Engine effect of `docker stop <name>` (`check=False`: failures are
swallowed, so this is total). -/
def cliStopCmd (eng : CliEngine) (name : String) : CliEngine :=
  { eng with containers :=
      eng.containers.map (fun c => if c.name == name then { c with statusLine := exitedLine } else c) }

/-- Engine effect of `docker rm <name>` (`check=False`). -/
def cliRmCmd (eng : CliEngine) (name : String) : CliEngine :=
  { eng with containers := eng.containers.filter (fun c => !(c.name == name)) }

/-- Engine effect of the `docker run -d --name <name> …` invocation built by
`start_instance`. -/
def cliRunCmd (eng : CliEngine) (name : String) : CliEngine :=
  { eng with containers := eng.containers ++ [⟨name, upLine, eng.freshCid, eng.freshCreated⟩] }

/-! ## Manager state and operation results -/

/-- The mutable `DockerManager` fields: `docker_available`, whether
`self.client` is not `None`, and the advisory `self.containers` cache (instance
id to container handle).  The constructor establishes `clientMode = true →
dockerAvailable = true` and `dockerAvailable = false → clientMode = false`;
the theorems instantiate states consistent with that. -/
structure Manager where
  dockerAvailable : Bool
  clientMode : Bool
  cache : List (Int × String)
deriving DecidableEq, Repr

/-- The external world an operation acts on: the engine state as seen by each
access mode plus the home directory (`os.path.expanduser("~")`). -/
structure World where
  cli : CliEngine
  cl : ClientEngine
  homeDir : String
deriving DecidableEq, Repr

/-- Python dict assignment `self.containers[instance_id] = handle`. -/
def cacheInsert (cache : List (Int × String)) (instance_id : Int) (handle : String) :
    List (Int × String) :=
  (instance_id, handle) :: cache.filter (fun kv => !(kv.1 == instance_id))

/-- Python `if instance_id in self.containers: del self.containers[instance_id]`. -/
def cacheDelete (cache : List (Int × String)) (instance_id : Int) : List (Int × String) :=
  cache.filter (fun kv => !(kv.1 == instance_id))

/-- Result of one lifecycle operation: the returned value or raised exception,
the engine state after it, the manager state after it, and the engine calls it
issued, in order. -/
structure Step (α : Type) where
  result : Except PyError α
  world : World
  mgr : Manager
  calls : List Call
deriving Repr

/-- The status dictionary returned by `get_instance_status`; `none` marks keys
absent from the `not_created` shape. -/
structure StatusRecord where
  instance_id : Int
  status : String
  ports : PortMap
  webrtc_url : String
  container_id : Option String
  created : Option String
deriving DecidableEq, Repr

/-- The dictionary returned by `remove_instance`. -/
structure RemoveResult where
  status : String
  instance_id : Int
deriving DecidableEq, Repr

/-- One element of the `cleanup_all` results list: either a `remove_instance`
result or the caught-failure record `{instance_id, status: "error", error}`. -/
structure CleanupEntry where
  instance_id : Int
  status : String
  error : Option String
deriving DecidableEq, Repr

/-- The `webrtc_url` field: derived from the HTTP port in every status record,
whatever the streaming flag says. -/
def webrtcUrl (p : PortMap) : String :=
  "http://localhost:" ++ toString p.http ++ "/streaming/webrtc-client/"

/-- `DockerManager.get_instance_status`: read-only; ports are computed first
(raising `ValueError` for an out-of-range id before any engine interaction),
then the record is assembled from engine queries, with the `not_created` shape
when the container is absent. -/
def get_instance_status (s : Settings) (m : Manager) (w : World) (instance_id : Int) :
    Except PyError StatusRecord × List Call :=
  let container_name := get_container_name instance_id
  match get_instance_ports s instance_id with
  | .error e => (.error e, [])
  | .ok ports =>
    if m.clientMode = false then
      let ex := (container_exists w.cli container_name).1
      let c1 := (container_exists w.cli container_name).2
      if ex = false then
        (.ok { instance_id := instance_id, status := "not_created", ports := ports,
               webrtc_url := webrtcUrl ports, container_id := none, created := none }, c1)
      else
        let stq := (get_container_status w.cli container_name).1
        let c2 := (get_container_status w.cli container_name).2
        let status := stq.getD "unknown"
        let cidOut := (cliPsIds w.cli container_name).1
        let c3 := (cliPsIds w.cli container_name).2
        let container_id := if pyStrip cidOut ≠ "" then pyTake (pyStrip cidOut) 12 else ""
        let insp := (cliInspectCreated w.cli container_name).1
        let c4 := (cliInspectCreated w.cli container_name).2
        let created := if insp.returncode == 0 then pyStrip insp.stdout else ""
        (.ok { instance_id := instance_id, status := status, ports := ports,
               webrtc_url := webrtcUrl ports, container_id := some container_id,
               created := some created },
         c1 ++ c2 ++ c3 ++ c4)
    else
      match clientFind w.cl container_name with
      | none =>
        (.ok { instance_id := instance_id, status := "not_created", ports := ports,
               webrtc_url := webrtcUrl ports, container_id := none, created := none },
         [Call.clientGet container_name])
      | some c =>
        (.ok { instance_id := instance_id, status := c.status, ports := ports,
               webrtc_url := webrtcUrl ports, container_id := some (pyTake c.cid 12),
               created := some c.created },
         [Call.clientGet container_name, Call.clientReload container_name])

/-- The `docker run` command line assembled by `start_instance` in CLI mode
(lines 220-241 of `docker_manager.py`). -/
def buildRunCmd (cfg : ContainerConfig) (container_name : String) : List String :=
  ["run", "-d", "--name", container_name]
    ++ ["--runtime", "nvidia"] ++ ["--network", "host"]
    ++ ["--shm-size", cfg.shm_size] ++ ["--memory", cfg.mem_limit]
    ++ ["--user", cfg.user]
    ++ (cfg.volumes.flatMap (fun v => ["-v", v.host ++ ":" ++ v.bind]))
    ++ (cfg.environment.flatMap (fun kv => ["-e", kv.1 ++ "=" ++ kv.2]))
    ++ (if cfg.device_requests ≠ [] then ["--gpus", "all"] else [])
    ++ [cfg.image] ++ cfg.command

/-- `DockerManager.start_instance`: checks engine availability, then the id
range, then either resumes/creates via subprocess (CLI mode) or via the
structured client, finishing with `get_instance_status`.  The CLI running
check compares the lowercased status against `"running"` and looks for the
substring `"Up"` in it, exactly as the source does. -/
def start_instance (s : Settings) (m : Manager) (w : World) (instance_id : Int) :
    Step StatusRecord :=
  if m.dockerAvailable = false then
    ⟨.error (.dockerException dockerUnavailableMsg), w, m, []⟩
  else if instance_id < 0 ∨ instance_id ≥ s.max_instances then
    ⟨.error (.valueError (invalidIdMsg s)), w, m, []⟩
  else
    let container_name := get_container_name instance_id
    if m.clientMode = false then
      let ex := (container_exists w.cli container_name).1
      let c1 := (container_exists w.cli container_name).2
      if ex then
        let stq := (get_container_status w.cli container_name).1
        let c2 := (get_container_status w.cli container_name).2
        match stq with
        | none =>
          ⟨.error (.typeError "argument of type NoneType is not iterable"), w, m, c1 ++ c2⟩
        | some status =>
          if status == "running" || strContains status "Up" then
            let r := (get_instance_status s m w instance_id).1
            let c3 := (get_instance_status s m w instance_id).2
            ⟨r, w, m, c1 ++ c2 ++ c3⟩
          else
            match cliStartCmd w.cli container_name with
            | .error e => ⟨.error e, w, m, c1 ++ c2 ++ [cliCall ["start", container_name]]⟩
            | .ok cli₂ =>
              let w₂ := { w with cli := cli₂ }
              let r := (get_instance_status s m w₂ instance_id).1
              let c3 := (get_instance_status s m w₂ instance_id).2
              ⟨r, w₂, m, c1 ++ c2 ++ [cliCall ["start", container_name]] ++ c3⟩
      else
        match build_container_config s w.homeDir instance_id with
        | .error e => ⟨.error e, w, m, c1⟩
        | .ok cfg =>
          let cmd := buildRunCmd cfg container_name
          let w₂ := { w with cli := cliRunCmd w.cli container_name }
          let r := (get_instance_status s m w₂ instance_id).1
          let c3 := (get_instance_status s m w₂ instance_id).2
          ⟨r, w₂, m, c1 ++ [cliCall cmd] ++ c3⟩
    else
      match clientFind w.cl container_name with
      | some existing =>
        if existing.status == "running" then
          let m₂ := { m with cache := cacheInsert m.cache instance_id container_name }
          let r := (get_instance_status s m₂ w instance_id).1
          let c2 := (get_instance_status s m₂ w instance_id).2
          ⟨r, w, m₂, Call.clientGet container_name :: c2⟩
        else if container_name ∈ w.cl.startFailures then
          ⟨.error (.apiError ("500 Server Error: failed to start " ++ container_name)), w, m,
           [Call.clientGet container_name, Call.clientStart container_name]⟩
        else
          let w₂ := { w with cl := clientSetStatus w.cl container_name "running" }
          let m₂ := { m with cache := cacheInsert m.cache instance_id container_name }
          let r := (get_instance_status s m₂ w₂ instance_id).1
          let c2 := (get_instance_status s m₂ w₂ instance_id).2
          ⟨r, w₂, m₂, Call.clientGet container_name :: Call.clientStart container_name :: c2⟩
      | none =>
        match build_container_config s w.homeDir instance_id with
        | .error e => ⟨.error e, w, m, [Call.clientGet container_name]⟩
        | .ok cfg =>
          if w.cl.runFails then
            ⟨.error (.apiError ("500 Server Error: failed to run " ++ cfg.image)), w, m,
             [Call.clientGet container_name, Call.clientRun cfg.image container_name]⟩
          else
            let w₂ := { w with cl := clientAdd w.cl container_name }
            let m₂ := { m with cache := cacheInsert m.cache instance_id container_name }
            let r := (get_instance_status s m₂ w₂ instance_id).1
            let c2 := (get_instance_status s m₂ w₂ instance_id).2
            ⟨r, w₂, m₂, Call.clientGet container_name :: Call.clientRun cfg.image container_name :: c2⟩

/-- The Python truthiness test
`status and ("running" in status.lower() or "up" in status.lower())` shared by
`stop_instance` and `remove_instance` in CLI mode. -/
def cliLooksRunning : Option String → Bool
  | some st => (st != "") && (strContains (pyLower st) "running" || strContains (pyLower st) "up")
  | none => false

/-- `DockerManager.stop_instance`.  Note it performs no `_check_docker` and no
identifier-range validation of its own. -/
def stop_instance (s : Settings) (m : Manager) (w : World) (instance_id : Int) :
    Step StatusRecord :=
  let container_name := get_container_name instance_id
  if m.clientMode = false then
    let ex := (container_exists w.cli container_name).1
    let c1 := (container_exists w.cli container_name).2
    if ex = false then
      let r := (get_instance_status s m w instance_id).1
      let c2 := (get_instance_status s m w instance_id).2
      ⟨r, w, m, c1 ++ c2⟩
    else
      let stq := (get_container_status w.cli container_name).1
      let c2 := (get_container_status w.cli container_name).2
      let doStop := cliLooksRunning stq
      let w₂ := if doStop then { w with cli := cliStopCmd w.cli container_name } else w
      let stopCalls := if doStop then [cliCall ["stop", container_name]] else ([] : List Call)
      let m₂ := { m with cache := cacheDelete m.cache instance_id }
      let r := (get_instance_status s m₂ w₂ instance_id).1
      let c3 := (get_instance_status s m₂ w₂ instance_id).2
      ⟨r, w₂, m₂, c1 ++ c2 ++ stopCalls ++ c3⟩
  else
    match clientFind w.cl container_name with
    | some c =>
      if c.status == "running" then
        if container_name ∈ w.cl.stopFailures then
          ⟨.error (.apiError ("500 Server Error: failed to stop " ++ container_name)), w, m,
           [Call.clientGet container_name, Call.clientStop container_name 10]⟩
        else
          let w₂ := { w with cl := clientSetStatus w.cl container_name "exited" }
          let m₂ := { m with cache := cacheDelete m.cache instance_id }
          let r := (get_instance_status s m₂ w₂ instance_id).1
          let c2 := (get_instance_status s m₂ w₂ instance_id).2
          ⟨r, w₂, m₂, Call.clientGet container_name :: Call.clientStop container_name 10 :: c2⟩
      else
        let r := (get_instance_status s m w instance_id).1
        let c2 := (get_instance_status s m w instance_id).2
        ⟨r, w, m, Call.clientGet container_name :: c2⟩
    | none =>
      let r := (get_instance_status s m w instance_id).1
      let c2 := (get_instance_status s m w instance_id).2
      ⟨r, w, m, Call.clientGet container_name :: c2⟩

/-- The tail of client-mode `remove_instance` after the optional stop:
`container.remove()` (possibly raising `APIError`), cache cleanup and the
`removed` result. -/
def removeClientPhase2 (w : World) (m : Manager) (instance_id : Int)
    (container_name : String) (calls₀ : List Call) : Step RemoveResult :=
  if container_name ∈ w.cl.removeFailures then
    ⟨.error (.apiError ("500 Server Error: failed to remove " ++ container_name)), w, m,
     calls₀ ++ [Call.clientRemove container_name]⟩
  else
    ⟨.ok ⟨"removed", instance_id⟩,
     { w with cl := clientDelete w.cl container_name },
     { m with cache := cacheDelete m.cache instance_id },
     calls₀ ++ [Call.clientRemove container_name]⟩

/-- `DockerManager.remove_instance`.  No `_check_docker`, no range check; in
CLI mode an absent container yields `{"status": "not_found"}` without any
error. -/
def remove_instance (_s : Settings) (m : Manager) (w : World) (instance_id : Int) :
    Step RemoveResult :=
  let container_name := get_container_name instance_id
  if m.clientMode = false then
    let ex := (container_exists w.cli container_name).1
    let c1 := (container_exists w.cli container_name).2
    if ex = false then
      ⟨.ok ⟨"not_found", instance_id⟩, w, m, c1⟩
    else
      let stq := (get_container_status w.cli container_name).1
      let c2 := (get_container_status w.cli container_name).2
      let doStop := cliLooksRunning stq
      let w₂ := if doStop then { w with cli := cliStopCmd w.cli container_name } else w
      let stopCalls := if doStop then [cliCall ["stop", container_name]] else ([] : List Call)
      let w₃ := { w₂ with cli := cliRmCmd w₂.cli container_name }
      let m₂ := { m with cache := cacheDelete m.cache instance_id }
      ⟨.ok ⟨"removed", instance_id⟩, w₃, m₂,
       c1 ++ c2 ++ stopCalls ++ [cliCall ["rm", container_name]]⟩
  else
    match clientFind w.cl container_name with
    | some c =>
      if c.status == "running" then
        if container_name ∈ w.cl.stopFailures then
          ⟨.error (.apiError ("500 Server Error: failed to stop " ++ container_name)), w, m,
           [Call.clientGet container_name, Call.clientStop container_name 10]⟩
        else
          removeClientPhase2 { w with cl := clientSetStatus w.cl container_name "exited" } m
            instance_id container_name
            [Call.clientGet container_name, Call.clientStop container_name 10]
      else
        removeClientPhase2 w m instance_id container_name [Call.clientGet container_name]
    | none =>
      ⟨.ok ⟨"not_found", instance_id⟩, w, m, [Call.clientGet container_name]⟩

/-- `DockerManager.restart_instance`: stop, then start, strictly sequential;
an exception from the stop phase propagates. -/
def restart_instance (s : Settings) (m : Manager) (w : World) (instance_id : Int) :
    Step StatusRecord :=
  let st := stop_instance s m w instance_id
  match st.result with
  | .error e => ⟨.error e, st.world, st.mgr, st.calls⟩
  | .ok _ =>
    let st₂ := start_instance s st.mgr st.world instance_id
    ⟨st₂.result, st₂.world, st₂.mgr, st.calls ++ st₂.calls⟩

/-- The loop body of `cleanup_all` over an explicit id list: each
`remove_instance` failure is caught and recorded as an
`{instance_id, status: "error", error: str(e)}` entry, and iteration
continues. -/
def cleanupGo (s : Settings) : Manager → World → List Int →
    List CleanupEntry × World × Manager × List Call
  | m, w, [] => ([], w, m, [])
  | m, w, instance_id :: rest =>
    let st := remove_instance s m w instance_id
    let entry : CleanupEntry :=
      match st.result with
      | .ok r => { instance_id := r.instance_id, status := r.status, error := none }
      | .error e => { instance_id := instance_id, status := "error", error := some (pyErrStr e) }
    let res := cleanupGo s st.mgr st.world rest
    (entry :: res.1, res.2.1, res.2.2.1, st.calls ++ res.2.2.2)

/-- `DockerManager.cleanup_all`: `remove_instance` over
`range(settings.max_instances)` with per-id exception capture. -/
def cleanup_all (s : Settings) (m : Manager) (w : World) :
    List CleanupEntry × World × Manager × List Call :=
  cleanupGo s m w ((List.range s.max_instances.toNat).map Int.ofNat)

/-- `DockerManager.get_logs`: read-only and total — every failure path returns
a diagnostic string instead of raising. -/
def get_logs (_s : Settings) (m : Manager) (w : World) (instance_id : Int) (tail : Int) :
    Except PyError String × List Call :=
  let container_name := get_container_name instance_id
  if m.clientMode = false then
    let ex := (container_exists w.cli container_name).1
    let c1 := (container_exists w.cli container_name).2
    if ex = false then
      (.ok ("Container for instance " ++ toString instance_id ++ " not found"), c1)
    else
      let logsArgs := ["logs", "--tail", toString tail, "--timestamps", container_name]
      match w.cli.logsOutcome with
      | .ok out => (.ok out, c1 ++ [cliCall logsArgs])
      | .exitNonzero stderr =>
        (.ok ("Error retrieving logs: " ++ stderr), c1 ++ [cliCall logsArgs])
      | .timedOut =>
        (.ok ("Error retrieving logs: " ++ timeoutMsg ("docker" :: logsArgs)),
         c1 ++ [cliCall logsArgs])
  else
    match clientFind w.cl container_name with
    | none =>
      (.ok ("Container for instance " ++ toString instance_id ++ " not found"),
       [Call.clientGet container_name])
    | some c =>
      if container_name ∈ w.cl.logsFailures then
        (.ok ("Error retrieving logs: log retrieval failed for " ++ container_name),
         [Call.clientGet container_name, Call.clientLogs container_name tail])
      else
        (.ok c.logs, [Call.clientGet container_name, Call.clientLogs container_name tail])

/-! ## Concrete fixtures used by counterexamples and witnesses -/

/-- A CLI engine with no containers. -/
def emptyCli : CliEngine := ⟨[], .ok "", "", ""⟩

/-- A client engine with no containers and no injected failures. -/
def emptyClient : ClientEngine := ⟨[], [], [], [], false, [], "", ""⟩

/-- A world with empty engines. -/
def w0 : World := ⟨emptyCli, emptyClient, "/root"⟩

/-- Manager in command-line fallback mode. -/
def mgrCli : Manager := ⟨true, false, []⟩

/-- Manager in structured-client mode. -/
def mgrClient : Manager := ⟨true, true, []⟩

/-- Manager with the engine unavailable (so no client either). -/
def mgrUnavail : Manager := ⟨false, false, []⟩

/-- CLI engine holding only the container of instance 10. -/
def cliTen : CliEngine :=
  ⟨[⟨"isaac-sim-instance-10", "Up 5 minutes", "deadbeef0123", "2024-02-02"⟩], .ok "", "f", "f"⟩

/-- World around `cliTen`. -/
def wTen : World := ⟨cliTen, emptyClient, "/root"⟩

/-- Settings identical to the defaults but with 16 instances, so that both
instance 1 and instance 10 are valid ids. -/
def settings16 : Settings := { defaultSettings with max_instances := 16 }

/-- Client engine with the four default instances present (stopped), where the
engine fails the removal of instance 2 with an `APIError`. -/
def clientFourFail2 : ClientEngine :=
  ⟨[⟨"isaac-sim-instance-0", "exited", "c0", "t0", ""⟩,
    ⟨"isaac-sim-instance-1", "exited", "c1", "t1", ""⟩,
    ⟨"isaac-sim-instance-2", "exited", "c2", "t2", ""⟩,
    ⟨"isaac-sim-instance-3", "exited", "c3", "t3", ""⟩],
   [], [], ["isaac-sim-instance-2"], false, [], "", ""⟩

/-- World around `clientFourFail2`. -/
def wFourFail2 : World := ⟨emptyCli, clientFourFail2, "/root"⟩

/-- Client engine holding instance 0 running. -/
def clientRun0 : ClientEngine :=
  ⟨[⟨"isaac-sim-instance-0", "running", "abcdef1234567890", "2024-01-01", "log"⟩],
   [], [], [], false, [], "", ""⟩

/-- World around `clientRun0`. -/
def wClientRun0 : World := ⟨emptyCli, clientRun0, "/root"⟩

/-- CLI engine holding instance 0 running. -/
def cliRun0 : CliEngine :=
  ⟨[⟨"isaac-sim-instance-0", "Up 5 minutes", "abc123def456", "2024-01-01"⟩], .ok "", "f", "f"⟩

/-- World around `cliRun0`. -/
def wCliRun0 : World := ⟨cliRun0, emptyClient, "/root"⟩

/-! ## Helper lemmas -/

theorem string_toList_append (a b : String) : (a ++ b).toList = a.toList ++ b.toList := by
  simp [String.toList, String.data_append]

theorem leadsWith_append_self (p q : List Char) : leadsWith p (p ++ q) = true := by
  induction p with
  | nil => rfl
  | cons a as ih => simp [leadsWith, ih]

theorem subListOf_of_leads {p s : List Char} (h : leadsWith p s = true) :
    subListOf p s = true := by
  cases s with
  | nil => simpa [subListOf] using h
  | cons b bs => simp [subListOf, h]

/-- A string contains every prefix of itself. -/
theorem strContains_append_right (x y : String) : strContains (x ++ y) x = true := by
  rw [strContains, string_toList_append]
  exact subListOf_of_leads (leadsWith_append_self _ _)

/-- A string contains itself. -/
theorem strContains_self (x : String) : strContains x x = true := by
  have h := strContains_append_right x ""
  simpa using h

theorem unlines_singleton (x : String) : unlines [x] = x ++ "\n" := rfl

/-- The two `DockerException` texts `_docker_cmd` can raise never coincide:
a timed-out command is always distinguishable from a failed one. -/
theorem timeoutMsg_ne_failedMsg (c c' : List String) (e : String) :
    timeoutMsg c ≠ failedMsg c' e := by
  intro h
  have hd := congrArg String.data h
  rw [timeoutMsg, failedMsg] at hd
  simp only [String.data_append, List.append_assoc] at hd
  have h16 := congrArg (List.take 16) hd
  rw [List.take_append_of_le_length (by decide),
      List.take_append_of_le_length (by decide)] at h16
  exact absurd h16 (by decide)

theorem get_instance_ports_ok {s : Settings} {instance_id : Int}
    (h : ¬(instance_id < 0 ∨ instance_id ≥ s.max_instances)) :
    get_instance_ports s instance_id = .ok (portsOf s instance_id) := by
  rw [get_instance_ports, if_neg h]; rfl

/-! ## Claim theorems -/

/-- C5: `get_instance_ports(id)` succeeds exactly for `0 ≤ id < max_instances`
(`ValueError` otherwise, in particular at `-1` and at `max_instances = 4`),
and with the default bases returns `base + id` per role — `{8211, 8011, 8899,
6080}` for instance 0 and `{8214, 8014, 8902, 6083}` for instance 3 — so that
for `max_instances = 4` each instance's four ports are pairwise distinct and
distinct instances' port sets are disjoint. -/
theorem C5_get_instance_ports :
    (∀ instance_id : Int, 0 ≤ instance_id → instance_id < 4 →
        get_instance_ports defaultSettings instance_id =
          .ok ⟨8211 + instance_id, 8011 + instance_id, 8899 + instance_id, 6080 + instance_id⟩) ∧
    (∀ instance_id : Int, instance_id < 0 ∨ 4 ≤ instance_id →
        get_instance_ports defaultSettings instance_id =
          .error (.valueError "Instance ID must be between 0 and 3")) ∧
    get_instance_ports defaultSettings 0 = .ok ⟨8211, 8011, 8899, 6080⟩ ∧
    get_instance_ports defaultSettings 3 = .ok ⟨8214, 8014, 8902, 6083⟩ ∧
    get_instance_ports defaultSettings (-1) =
      .error (.valueError "Instance ID must be between 0 and 3") ∧
    get_instance_ports defaultSettings 4 =
      .error (.valueError "Instance ID must be between 0 and 3") ∧
    (∀ i : Fin 4, get_instance_ports defaultSettings (i.val : Int) =
        .ok (portsOf defaultSettings (i.val : Int))) ∧
    (∀ i : Fin 4, (portsOf defaultSettings (i.val : Int)).toList.Nodup) ∧
    (∀ i j : Fin 4, i ≠ j →
        ∀ p ∈ (portsOf defaultSettings (i.val : Int)).toList,
          p ∉ (portsOf defaultSettings (j.val : Int)).toList) := by
  have hm : defaultSettings.max_instances = 4 := rfl
  refine ⟨?_, ?_, by decide, by decide, by decide, by decide, by decide, by decide, by decide⟩
  · intro id h0 h1
    rw [get_instance_ports_ok (by rw [hm]; omega)]
    rfl
  · intro id h
    rw [get_instance_ports, if_pos (by rw [hm]; omega)]
    rfl

/-- C5 witness: the range hypotheses of `C5_get_instance_ports` discharged at
instance 2. -/
theorem C5_witness :
    get_instance_ports defaultSettings 2 = .ok ⟨8213, 8013, 8901, 6082⟩ :=
  C5_get_instance_ports.1 2 (by decide) (by decide)

/-- C2 counterexample: with the default settings streaming is enabled, yet the
startup command is the full-interface VNC wrapper command, not a headless
command, and no element of the command line mentions the instance's HTTP port
8211 or streaming port 8011 — refuting the claim that the streaming-enabled
template is a headless command with both ports baked in. -/
theorem C2_counterexample :
    defaultSettings.enable_webrtc = true ∧
    (build_container_config defaultSettings "/root" 0).map (fun c => c.command) =
      .ok ["/isaac-sim/start_with_vnc.sh", "./isaac-sim.sh", "--allow-root"] ∧
    (build_container_config defaultSettings "/root" 0).map
        (fun c => c.command.all (fun a => !(strContains a "8211") && !(strContains a "8011"))) =
      .ok true :=
  ⟨rfl, by decide, by decide⟩

/-- C2 amended: the startup command is selected by the streaming flag between
exactly two fixed templates, neither of which carries any port: with streaming
enabled, the VNC bootstrap wrapper launching the full-interface
`./isaac-sim.sh --allow-root`; with streaming disabled, the same wrapper
launching `./runheadless.sh -v`. -/
theorem C2_command_templates (s : Settings) (home_dir : String) (instance_id : Int) :
    (build_container_config s home_dir instance_id).map (fun c => c.command) =
      (get_instance_ports s instance_id).map (fun _ =>
        if s.enable_webrtc then
          ["/isaac-sim/start_with_vnc.sh", "./isaac-sim.sh", "--allow-root"]
        else
          ["/isaac-sim/start_with_vnc.sh", "./runheadless.sh", "-v"]) := by
  rw [build_container_config]
  cases hp : get_instance_ports s instance_id with
  | error e => simp [hp, Except.map]
  | ok p => simp [hp, Except.map]

/-- C10: in command-line fallback mode existence is substring containment —
`_container_exists` returns exactly the containment test on the name-filtered
listing; consequently, with only the container `isaac-sim-instance-10`
present, instance 1 is reported as existing (its status record is the engine's
`up` record, not `not_created`) although no container bears that exact name. -/
theorem C10_substring_match :
    (∀ (eng : CliEngine) (name : String),
        (container_exists eng name).1 =
          strContains (unlines ((psFilterNames eng name).map (fun c => c.name))) name) ∧
    (container_exists cliTen "isaac-sim-instance-1").1 = true ∧
    cliTen.containers.all (fun c => c.name != "isaac-sim-instance-1") = true ∧
    (get_instance_status settings16 mgrCli wTen 1).1 =
      .ok ⟨1, "up", ⟨8212, 8012, 8900, 6081⟩,
           "http://localhost:8212/streaming/webrtc-client/",
           some "deadbeef0123", some ""⟩ :=
  ⟨fun _ _ => rfl, by decide, by decide, by decide⟩

theorem status_calls_30 (s : Settings) (m : Manager) (w : World) (instance_id : Int) :
    ((get_instance_status s m w instance_id).2).all Call.cliTimeout30 = true := by
  unfold get_instance_status
  split
  · rfl
  · dsimp only
    split
    · split
      · rfl
      · rfl
    · split
      · rfl
      · rfl

theorem logs_calls_30 (s : Settings) (m : Manager) (w : World) (instance_id tail : Int) :
    ((get_logs s m w instance_id tail).2).all Call.cliTimeout30 = true := by
  unfold get_logs
  dsimp only
  split
  · split
    · rfl
    · split <;> rfl
  · split
    · rfl
    · split <;> rfl

theorem start_calls_30 (s : Settings) (m : Manager) (w : World) (instance_id : Int) :
    ((start_instance s m w instance_id).calls).all Call.cliTimeout30 = true := by
  unfold start_instance
  dsimp only
  repeat' split
  all_goals first
    | rfl
    | simp [List.all_append, List.all_cons, status_calls_30, container_exists,
            get_container_status, cliCall, Call.cliTimeout30, dockerCmdTimeoutSecs]

theorem stop_calls_30 (s : Settings) (m : Manager) (w : World) (instance_id : Int) :
    ((stop_instance s m w instance_id).calls).all Call.cliTimeout30 = true := by
  unfold stop_instance
  dsimp only
  repeat' split
  all_goals first
    | rfl
    | simp [List.all_append, List.all_cons, status_calls_30, container_exists,
            get_container_status, cliCall, Call.cliTimeout30, dockerCmdTimeoutSecs]

theorem remove_calls_30 (s : Settings) (m : Manager) (w : World) (instance_id : Int) :
    ((remove_instance s m w instance_id).calls).all Call.cliTimeout30 = true := by
  unfold remove_instance removeClientPhase2
  dsimp only
  repeat' split
  all_goals rfl

theorem restart_calls_30 (s : Settings) (m : Manager) (w : World) (instance_id : Int) :
    ((restart_instance s m w instance_id).calls).all Call.cliTimeout30 = true := by
  unfold restart_instance
  dsimp only
  split
  · simp [stop_calls_30]
  · simp [List.all_append, stop_calls_30, start_calls_30]

theorem cleanupGo_calls_30 (s : Settings) (ids : List Int) :
    ∀ (m : Manager) (w : World), ((cleanupGo s m w ids).2.2.2).all Call.cliTimeout30 = true := by
  induction ids with
  | nil => intro m w; rfl
  | cons id rest ih =>
    intro m w
    simp only [cleanupGo]
    simp [List.all_append, remove_calls_30, ih]

theorem cleanup_calls_30 (s : Settings) (m : Manager) (w : World) :
    ((cleanup_all s m w).2.2.2).all Call.cliTimeout30 = true := by
  unfold cleanup_all
  exact cleanupGo_calls_30 s _ m w

/-- C4: every command-line engine invocation of the lifecycle operations
carries the fixed 30-second deadline (`_docker_cmd` consults only the
deadline-30 behavior of the shell, and every subprocess call recorded in any
operation's trace carries 30), the structured-client graceful stop uses the
10-second grace period, and exceeding the deadline raises the
Docker-command-timed-out `DockerException`, whose text never coincides with
the Docker-command-failed text, so a caller can distinguish the two cases. -/
theorem C4_bounded_timeouts :
    (∀ (sh sh₂ : Shell) (cmd : List String) (check : Bool),
        sh ("docker" :: cmd) 30 = sh₂ ("docker" :: cmd) 30 →
        docker_cmd sh cmd check = docker_cmd sh₂ cmd check) ∧
    (∀ (sh : Shell) (cmd : List String) (check : Bool),
        sh ("docker" :: cmd) 30 = ProcOutcome.timedOut →
        docker_cmd sh cmd check =
          .error (.dockerException (timeoutMsg ("docker" :: cmd)))) ∧
    (∀ (sh : Shell) (cmd : List String) (rc : Int) (out err : String),
        sh ("docker" :: cmd) 30 = ProcOutcome.completed rc out err → rc ≠ 0 →
        docker_cmd sh cmd true =
          .error (.dockerException (failedMsg ("docker" :: cmd) err))) ∧
    (∀ (full_cmd full_cmd₂ : List String) (stderr : String),
        timeoutMsg full_cmd ≠ failedMsg full_cmd₂ stderr) ∧
    (∀ (s : Settings) (cache : List (Int × String)) (w : World) (instance_id : Int)
        (c : ClientContainer),
        clientFind w.cl (get_container_name instance_id) = some c → c.status = "running" →
        Call.clientStop (get_container_name instance_id) 10 ∈
          (stop_instance s ⟨true, true, cache⟩ w instance_id).calls) ∧
    (∀ (s : Settings) (m : Manager) (w : World) (instance_id : Int),
        ((start_instance s m w instance_id).calls).all Call.cliTimeout30 = true) ∧
    (∀ (s : Settings) (m : Manager) (w : World) (instance_id : Int),
        ((stop_instance s m w instance_id).calls).all Call.cliTimeout30 = true) ∧
    (∀ (s : Settings) (m : Manager) (w : World) (instance_id : Int),
        ((restart_instance s m w instance_id).calls).all Call.cliTimeout30 = true) ∧
    (∀ (s : Settings) (m : Manager) (w : World) (instance_id : Int),
        ((remove_instance s m w instance_id).calls).all Call.cliTimeout30 = true) ∧
    (∀ (s : Settings) (m : Manager) (w : World) (instance_id : Int),
        ((get_instance_status s m w instance_id).2).all Call.cliTimeout30 = true) ∧
    (∀ (s : Settings) (m : Manager) (w : World) (instance_id tail : Int),
        ((get_logs s m w instance_id tail).2).all Call.cliTimeout30 = true) ∧
    (∀ (s : Settings) (m : Manager) (w : World),
        ((cleanup_all s m w).2.2.2).all Call.cliTimeout30 = true) := by
  refine ⟨?_, ?_, ?_, timeoutMsg_ne_failedMsg, ?_,
          start_calls_30, stop_calls_30, restart_calls_30, remove_calls_30,
          status_calls_30, logs_calls_30, cleanup_calls_30⟩
  · intro sh sh₂ cmd check h
    unfold docker_cmd dockerCmdTimeoutSecs
    dsimp only
    rw [h]
  · intro sh cmd check h
    unfold docker_cmd dockerCmdTimeoutSecs
    dsimp only
    rw [h]
  · intro sh cmd rc out err h hrc
    unfold docker_cmd dockerCmdTimeoutSecs
    dsimp only
    rw [h]
    simp [bne_iff_ne, hrc]
  · intro s cache w instance_id c hfind hst
    unfold stop_instance
    dsimp only
    simp only [hfind]
    simp [hst]
    split <;> simp

/-- C4 witness: the hypotheses of `C4_bounded_timeouts` discharged at a
concrete always-timing-out shell and at a concrete running instance 0. -/
theorem C4_witness :
    docker_cmd (fun _ _ => ProcOutcome.timedOut) ["ps"] true =
      .error (.dockerException (timeoutMsg ["docker", "ps"])) ∧
    Call.clientStop "isaac-sim-instance-0" 10 ∈
      (stop_instance defaultSettings ⟨true, true, []⟩ wClientRun0 0).calls :=
  ⟨C4_bounded_timeouts.2.1 _ _ _ rfl,
   C4_bounded_timeouts.2.2.2.2.1 defaultSettings [] wClientRun0 0
     ⟨"isaac-sim-instance-0", "running", "abcdef1234567890", "2024-01-01", "log"⟩ rfl rfl⟩

/-- Is the instance's container absent from the engine, as seen by the active
access mode? -/
def absentInB (m : Manager) (w : World) (name : String) : Bool :=
  if m.clientMode then (clientFind w.cl name).isNone else !(container_exists w.cli name).1

/-- C9: `get_logs` never raises — for every id, tail value, mode and engine
state it returns a string; when the container is absent the string is the
not-found diagnostic, and when CLI log retrieval fails (nonzero exit or
timeout) the string is the error diagnostic, not a propagated exception. -/
theorem C9_get_logs_total :
    (∀ (s : Settings) (m : Manager) (w : World) (instance_id tail : Int),
        isOkE (get_logs s m w instance_id tail).1 = true) ∧
    (∀ (s : Settings) (m : Manager) (w : World) (instance_id tail : Int),
        absentInB m w (get_container_name instance_id) = true →
        (get_logs s m w instance_id tail).1 =
          .ok ("Container for instance " ++ toString instance_id ++ " not found")) ∧
    (∀ (s : Settings) (m : Manager) (w : World) (instance_id tail : Int) (err : String),
        m.clientMode = false →
        (container_exists w.cli (get_container_name instance_id)).1 = true →
        w.cli.logsOutcome = CliLogsOutcome.exitNonzero err →
        (get_logs s m w instance_id tail).1 = .ok ("Error retrieving logs: " ++ err)) ∧
    (∀ (s : Settings) (m : Manager) (w : World) (instance_id tail : Int),
        m.clientMode = false →
        (container_exists w.cli (get_container_name instance_id)).1 = true →
        w.cli.logsOutcome = CliLogsOutcome.timedOut →
        (get_logs s m w instance_id tail).1 =
          .ok ("Error retrieving logs: " ++ timeoutMsg
            ["docker", "logs", "--tail", toString tail, "--timestamps",
             get_container_name instance_id])) := by
  refine ⟨?_, ?_, ?_, ?_⟩
  · intro s m w instance_id tail
    unfold get_logs
    dsimp only
    split
    · split
      · rfl
      · split <;> rfl
    · split
      · rfl
      · split <;> rfl
  · intro s m w instance_id tail habs
    unfold absentInB at habs
    unfold get_logs
    dsimp only
    split
    · rename_i hcm
      rw [if_neg (by simp [hcm])] at habs
      simp only [Bool.not_eq_true'] at habs
      simp [habs]
    · rename_i hcm
      rw [if_pos (by revert hcm; cases m.clientMode <;> simp)] at habs
      rw [Option.isNone_iff_eq_none] at habs
      simp [habs]
  · intro s m w instance_id tail err hcm hex hout
    unfold get_logs
    dsimp only
    rw [if_pos hcm, if_neg (by simp [hex]), hout]
  · intro s m w instance_id tail hcm hex hout
    unfold get_logs
    dsimp only
    rw [if_pos hcm, if_neg (by simp [hex]), hout]

/-- C9 witness: `C9_get_logs_total` instantiated at concrete absent-container
states. -/
theorem C9_witness :
    isOkE (get_logs defaultSettings mgrCli w0 0 100).1 = true ∧
    (get_logs defaultSettings mgrCli w0 2 100).1 = .ok "Container for instance 2 not found" :=
  ⟨C9_get_logs_total.1 defaultSettings mgrCli w0 0 100,
   C9_get_logs_total.2.1 defaultSettings mgrCli w0 2 100 (by decide)⟩

/-- C8: for every valid id, `get_instance_status` is read-only (its trace has
no mutating engine call) and always succeeds structurally; every returned
record carries `webrtc_url = http://localhost:<http_port>/streaming/webrtc-client/`
(whatever the streaming flag is, since the settings are arbitrary here), and
when the container is absent the record is the `not_created` shape with the
instance's ports rather than a failure. -/
theorem C8_status_read_only (s : Settings) (m : Manager) (w : World) (instance_id : Int)
    (h0 : 0 ≤ instance_id) (h1 : instance_id < s.max_instances) :
    isOkE (get_instance_status s m w instance_id).1 = true ∧
    ((get_instance_status s m w instance_id).2).all (fun c => !c.isMutating) = true ∧
    (∀ r, (get_instance_status s m w instance_id).1 = .ok r →
        r.webrtc_url = "http://localhost:" ++ toString (s.http_port_base + instance_id) ++
          "/streaming/webrtc-client/") ∧
    (absentInB m w (get_container_name instance_id) = true →
        (get_instance_status s m w instance_id).1 =
          .ok ⟨instance_id, "not_created", portsOf s instance_id,
               webrtcUrl (portsOf s instance_id), none, none⟩) := by
  have hp := get_instance_ports_ok
    (show ¬(instance_id < 0 ∨ instance_id ≥ s.max_instances) by omega)
  refine ⟨?_, ?_, ?_, ?_⟩
  · unfold get_instance_status
    rw [hp]
    dsimp only
    split
    · split <;> rfl
    · split <;> rfl
  · unfold get_instance_status
    rw [hp]
    dsimp only
    split
    · split <;> rfl
    · split <;> rfl
  · intro r hr
    unfold get_instance_status at hr
    rw [hp] at hr
    dsimp only at hr
    revert hr
    split
    · split
      · intro hr
        injection hr with hr
        subst hr
        rfl
      · intro hr
        injection hr with hr
        subst hr
        rfl
    · split
      · intro hr
        injection hr with hr
        subst hr
        rfl
      · intro hr
        injection hr with hr
        subst hr
        rfl
  · intro habs
    unfold absentInB at habs
    unfold get_instance_status
    rw [hp]
    dsimp only
    split
    · rename_i hcm
      rw [if_neg (by simp [hcm])] at habs
      simp only [Bool.not_eq_true'] at habs
      simp [habs]
    · rename_i hcm
      rw [if_pos (by revert hcm; cases m.clientMode <;> simp)] at habs
      rw [Option.isNone_iff_eq_none] at habs
      simp [habs]

/-- C8 witness: the hypotheses of `C8_status_read_only` discharged at
instance 1 over the empty engine. -/
theorem C8_witness :
    0 ≤ (1 : Int) ∧ (1 : Int) < defaultSettings.max_instances ∧
    (get_instance_status defaultSettings mgrClient w0 1).1 =
      .ok ⟨1, "not_created", ⟨8212, 8012, 8900, 6081⟩,
           "http://localhost:8212/streaming/webrtc-client/", none, none⟩ :=
  ⟨by decide, by decide,
   (C8_status_read_only defaultSettings mgrClient w0 1 (by decide) (by decide)).2.2.2 (by decide)⟩

theorem remove_result_id {s : Settings} {m : Manager} {w : World} {instance_id : Int}
    {r : RemoveResult} (h : (remove_instance s m w instance_id).result = .ok r) :
    r.instance_id = instance_id := by
  unfold remove_instance removeClientPhase2 at h
  dsimp only at h
  revert h
  repeat' split
  all_goals intro h
  all_goals first
    | (injection h with h; subst h; rfl)
    | exact absurd h (by simp)

theorem cleanupGo_ids (s : Settings) (ids : List Int) :
    ∀ (m : Manager) (w : World),
      (cleanupGo s m w ids).1.map (fun e => e.instance_id) = ids := by
  induction ids with
  | nil => intro m w; rfl
  | cons id rest ih =>
    intro m w
    simp only [cleanupGo]
    cases h : (remove_instance s m w id).result with
    | ok r => simp [h, remove_result_id h, ih]
    | error e => simp [h, ih]

/-- C7: `cleanup_all` applies `remove_instance` to every id in
`[0, max_instances)` in ascending order and returns one entry per id
(whatever the engine does); in the concrete scenario where the engine fails
the removal of instance 2 with an `APIError`, that failure is caught and
recorded as the `{instance_id: 2, status: "error", error: …}` entry while
instances 0, 1 and 3 are still removed — no failure aborts the batch. -/
theorem C7_cleanup_all :
    (∀ (s : Settings) (m : Manager) (w : World),
        (cleanup_all s m w).1.map (fun e => e.instance_id) =
          (List.range s.max_instances.toNat).map Int.ofNat) ∧
    (∀ (s : Settings) (m : Manager) (w : World),
        (cleanup_all s m w).1.length = s.max_instances.toNat) ∧
    (cleanup_all defaultSettings mgrClient wFourFail2).1 =
      [⟨0, "removed", none⟩, ⟨1, "removed", none⟩,
       ⟨2, "error", some "500 Server Error: failed to remove isaac-sim-instance-2"⟩,
       ⟨3, "removed", none⟩] := by
  refine ⟨?_, ?_, by decide⟩
  · intro s m w
    exact cleanupGo_ids s _ m w
  · intro s m w
    have h := cleanupGo_ids s ((List.range s.max_instances.toNat).map Int.ofNat) m w
    have hl := congrArg List.length h
    simpa using hl

theorem get_instance_ports_error {s : Settings} {instance_id : Int} {e : PyError}
    (h : get_instance_ports s instance_id = .error e) :
    e = .valueError (invalidIdMsg s) := by
  unfold get_instance_ports at h
  revert h
  split
  · intro h; injection h with h; exact h.symm
  · intro h; exact absurd h (by simp)

theorem status_error_inv {s : Settings} {m : Manager} {w : World} {instance_id : Int}
    {e : PyError} (h : (get_instance_status s m w instance_id).1 = .error e) :
    e = .valueError (invalidIdMsg s) := by
  unfold get_instance_status at h
  revert h
  split
  · rename_i e₂ hp
    intro h
    injection h with h₂
    exact h₂ ▸ get_instance_ports_error hp
  · dsimp only
    split
    · split
      · intro h; exact absurd h (by simp)
      · intro h; exact absurd h (by simp)
    · split
      · intro h; exact absurd h (by simp)
      · intro h; exact absurd h (by simp)

theorem status_error_of_invalid {s : Settings} (m : Manager) (w : World) {instance_id : Int}
    (hid : instance_id < 0 ∨ instance_id ≥ s.max_instances) :
    (get_instance_status s m w instance_id).1 = .error (.valueError (invalidIdMsg s)) := by
  unfold get_instance_status
  rw [get_instance_ports, if_pos hid]

theorem status_ok_of_valid {s : Settings} {m : Manager} {w : World} {instance_id : Int}
    (h : ¬(instance_id < 0 ∨ instance_id ≥ s.max_instances)) :
    isOkE (get_instance_status s m w instance_id).1 = true := by
  unfold get_instance_status
  rw [get_instance_ports_ok h]
  dsimp only
  split
  · split <;> rfl
  · split <;> rfl

theorem exists_ok_of_isOkE {ε α : Type} {x : Except ε α} (h : isOkE x = true) :
    ∃ a, x = .ok a := by
  cases x with
  | ok a => exact ⟨a, rfl⟩
  | error e => simp [isOkE] at h

theorem stop_calls_ne (s : Settings) (m : Manager) (w : World) (instance_id : Int) :
    (stop_instance s m w instance_id).calls ≠ [] := by
  unfold stop_instance
  dsimp only
  repeat' split
  all_goals simp [container_exists]

theorem remove_calls_ne (s : Settings) (m : Manager) (w : World) (instance_id : Int) :
    (remove_instance s m w instance_id).calls ≠ [] := by
  unfold remove_instance removeClientPhase2
  dsimp only
  repeat' split
  all_goals simp [container_exists]

theorem logs_calls_ne (s : Settings) (m : Manager) (w : World) (instance_id tail : Int) :
    (get_logs s m w instance_id tail).2 ≠ [] := by
  unfold get_logs
  dsimp only
  repeat' split
  all_goals simp [container_exists]

theorem stop_preserves_flags (s : Settings) (m : Manager) (w : World) (instance_id : Int) :
    (stop_instance s m w instance_id).mgr.dockerAvailable = m.dockerAvailable ∧
    (stop_instance s m w instance_id).mgr.clientMode = m.clientMode := by
  unfold stop_instance
  dsimp only
  repeat' split
  all_goals exact ⟨rfl, rfl⟩

theorem remove_preserves_flags (s : Settings) (m : Manager) (w : World) (instance_id : Int) :
    (remove_instance s m w instance_id).mgr.dockerAvailable = m.dockerAvailable ∧
    (remove_instance s m w instance_id).mgr.clientMode = m.clientMode := by
  unfold remove_instance removeClientPhase2
  dsimp only
  repeat' split
  all_goals exact ⟨rfl, rfl⟩

theorem stop_cli_result (s : Settings) (m : Manager) (w : World) (instance_id : Int)
    (hcm : m.clientMode = false) :
    ∃ mw : World × Manager, (stop_instance s m w instance_id).result =
      (get_instance_status s mw.2 mw.1 instance_id).1 := by
  unfold stop_instance
  dsimp only
  rw [if_pos hcm]
  split
  · exact ⟨(w, m), rfl⟩
  · exact ⟨(_, _), rfl⟩

theorem stop_no_dockerException (s : Settings) {m : Manager} (w : World) (instance_id : Int)
    (hcm : m.clientMode = false) :
    ∀ msg, (stop_instance s m w instance_id).result ≠ .error (.dockerException msg) := by
  intro msg h
  obtain ⟨mw, hs⟩ := stop_cli_result s m w instance_id hcm
  rw [hs] at h
  have := status_error_inv h
  simp at this

theorem remove_cli_ok (s : Settings) {m : Manager} (w : World) (instance_id : Int)
    (hcm : m.clientMode = false) :
    ∃ r, (remove_instance s m w instance_id).result = .ok r := by
  unfold remove_instance
  dsimp only
  rw [if_pos hcm]
  split
  · exact ⟨_, rfl⟩
  · exact ⟨_, rfl⟩

theorem remove_no_valueError (s : Settings) (m : Manager) (w : World) (instance_id : Int) :
    ∀ msg, (remove_instance s m w instance_id).result ≠ .error (.valueError msg) := by
  intro msg
  unfold remove_instance removeClientPhase2
  dsimp only
  repeat' split
  all_goals simp

theorem cleanupGo_entries_ok (s : Settings) (ids : List Int) :
    ∀ (m : Manager) (w : World), m.clientMode = false →
      ((cleanupGo s m w ids).1).all (fun e => e.error.isNone) = true := by
  induction ids with
  | nil => intro m w _; rfl
  | cons id rest ih =>
    intro m w hcm
    simp only [cleanupGo]
    obtain ⟨r, hr⟩ := remove_cli_ok s w id hcm
    have hpm := (remove_preserves_flags s m w id).2
    simp [hr, ih _ _ (hpm.trans hcm)]

theorem cleanupGo_calls_ne (s : Settings) (m : Manager) (w : World) (id : Int)
    (rest : List Int) : (cleanupGo s m w (id :: rest)).2.2.2 ≠ [] := by
  simp only [cleanupGo]
  intro h
  rw [List.append_eq_nil] at h
  exact remove_calls_ne s m w id h.1

theorem cleanup_calls_ne (s : Settings) (m : Manager) (w : World)
    (hmax : 0 < s.max_instances) : (cleanup_all s m w).2.2.2 ≠ [] := by
  unfold cleanup_all
  have hpos : 0 < s.max_instances.toNat := by omega
  cases hn : s.max_instances.toNat with
  | zero => omega
  | succ k =>
    rw [List.range_succ_eq_map, List.map_cons]
    exact cleanupGo_calls_ne s m w _ _

/-- C1 counterexample: with the engine unavailable, `stop_instance` does not
fail with the `_check_docker` `DockerException` — it returns a normal
`not_created` status record — and its trace contains a subprocess docker
invocation, so engine calls are issued. -/
theorem C1_counterexample :
    (stop_instance defaultSettings mgrUnavail w0 0).result =
      .ok ⟨0, "not_created", ⟨8211, 8011, 8899, 6080⟩,
           "http://localhost:8211/streaming/webrtc-client/", none, none⟩ ∧
    (stop_instance defaultSettings mgrUnavail w0 0).calls ≠ [] :=
  ⟨by decide, by decide⟩

/-- C1 amended: with the engine unavailable, only `start_instance` fails with
the `_check_docker` engine-unavailable `DockerException` before issuing any
engine call; `restart_instance` fails with that error too, but only after its
stop phase has issued engine calls; `stop_instance`, `remove_instance` and
`cleanup_all` perform no availability check — they proceed down the
command-line fallback path, issue subprocess invocations, and never raise the
engine-unavailable error (`stop` returns a status or an invalid-id
`ValueError`, `remove` returns a normal result, `cleanup_all` records no error
entries). -/
theorem C1_engine_unavailable (s : Settings) (cache : List (Int × String)) (w : World)
    (instance_id : Int) :
    ((start_instance s ⟨false, false, cache⟩ w instance_id).result =
        .error (.dockerException dockerUnavailableMsg) ∧
     (start_instance s ⟨false, false, cache⟩ w instance_id).calls = []) ∧
    ((stop_instance s ⟨false, false, cache⟩ w instance_id).calls ≠ [] ∧
     ∀ msg, (stop_instance s ⟨false, false, cache⟩ w instance_id).result ≠
        .error (.dockerException msg)) ∧
    ((remove_instance s ⟨false, false, cache⟩ w instance_id).calls ≠ [] ∧
     ∃ r, (remove_instance s ⟨false, false, cache⟩ w instance_id).result = .ok r) ∧
    (0 ≤ instance_id → instance_id < s.max_instances →
      (restart_instance s ⟨false, false, cache⟩ w instance_id).result =
        .error (.dockerException dockerUnavailableMsg) ∧
      (restart_instance s ⟨false, false, cache⟩ w instance_id).calls ≠ []) ∧
    (0 < s.max_instances → (cleanup_all s ⟨false, false, cache⟩ w).2.2.2 ≠ []) ∧
    ((cleanup_all s ⟨false, false, cache⟩ w).1.all (fun e => e.error.isNone) = true) := by
  refine ⟨⟨rfl, rfl⟩,
          ⟨stop_calls_ne s _ w instance_id, stop_no_dockerException s w instance_id rfl⟩,
          ⟨remove_calls_ne s _ w instance_id, remove_cli_ok s w instance_id rfl⟩,
          ?_, cleanup_calls_ne s _ w,
          by unfold cleanup_all; exact cleanupGo_entries_ok s _ _ w rfl⟩
  intro h0 h1
  have hval : ¬(instance_id < 0 ∨ instance_id ≥ s.max_instances) := by omega
  obtain ⟨mw, hs⟩ := stop_cli_result s ⟨false, false, cache⟩ w instance_id rfl
  have hok : isOkE (stop_instance s ⟨false, false, cache⟩ w instance_id).result = true := by
    rw [hs]; exact status_ok_of_valid hval
  obtain ⟨r, hr⟩ := exists_ok_of_isOkE hok
  have hda : (stop_instance s ⟨false, false, cache⟩ w instance_id).mgr.dockerAvailable = false :=
    (stop_preserves_flags s _ w instance_id).1.trans rfl
  constructor
  · unfold restart_instance
    dsimp only
    rw [hr]
    dsimp only
    unfold start_instance
    rw [if_pos hda]
  · unfold restart_instance
    dsimp only
    rw [hr]
    dsimp only
    intro hnil
    rw [List.append_eq_nil] at hnil
    exact stop_calls_ne s _ w instance_id hnil.1

/-- C1 witness: the hypotheses of `C1_engine_unavailable` discharged at
instance 0 with the default four-instance settings. -/
theorem C1_witness :
    (restart_instance defaultSettings ⟨false, false, []⟩ w0 0).result =
      .error (.dockerException dockerUnavailableMsg) ∧
    (cleanup_all defaultSettings ⟨false, false, []⟩ w0).2.2.2 ≠ [] :=
  ⟨((C1_engine_unavailable defaultSettings [] w0 0).2.2.2.1 (by decide) (by decide)).1,
   (C1_engine_unavailable defaultSettings [] w0 0).2.2.2.2.1 (by decide)⟩

theorem logs_ok (s : Settings) (m : Manager) (w : World) (instance_id tail : Int) :
    isOkE (get_logs s m w instance_id tail).1 = true := by
  unfold get_logs
  dsimp only
  split
  · split
    · rfl
    · split <;> rfl
  · split
    · rfl
    · split <;> rfl

theorem restart_calls_ne (s : Settings) (m : Manager) (w : World) (instance_id : Int) :
    (restart_instance s m w instance_id).calls ≠ [] := by
  unfold restart_instance
  dsimp only
  split
  · exact stop_calls_ne s m w instance_id
  · intro h
    rw [List.append_eq_nil] at h
    exact stop_calls_ne s m w instance_id h.1

/-- C3 counterexample: `remove_instance` on the out-of-range id 4 (with
`max_instances = 4`) is not rejected with the invalid-identifier error — it
returns a normal `not_found` result — and its trace contains a subprocess
docker invocation, so engine interaction does occur for an out-of-range id. -/
theorem C3_counterexample :
    (remove_instance defaultSettings mgrCli w0 4).result = .ok ⟨"not_found", 4⟩ ∧
    (remove_instance defaultSettings mgrCli w0 4).calls ≠ [] :=
  ⟨by decide, by decide⟩

/-- C3 amended: only `start_instance` and `get_instance_status` reject an
out-of-range id with the invalid-identifier `ValueError` before any engine
interaction; `stop_instance`, `remove_instance`, `get_logs` and
`restart_instance` issue engine calls first — CLI-mode `stop` surfaces the
`ValueError` only afterwards, when the final status is computed, `remove`
never raises it at all, and `get_logs` returns a diagnostic string without
raising. -/
theorem C3_id_validation (s : Settings) (m : Manager) (w : World) (instance_id : Int)
    (hid : instance_id < 0 ∨ instance_id ≥ s.max_instances) :
    (m.dockerAvailable = true →
      (start_instance s m w instance_id).result = .error (.valueError (invalidIdMsg s)) ∧
      (start_instance s m w instance_id).calls = []) ∧
    ((get_instance_status s m w instance_id).1 = .error (.valueError (invalidIdMsg s)) ∧
     (get_instance_status s m w instance_id).2 = []) ∧
    ((stop_instance s m w instance_id).calls ≠ [] ∧
     (m.clientMode = false →
       (stop_instance s m w instance_id).result = .error (.valueError (invalidIdMsg s)))) ∧
    ((remove_instance s m w instance_id).calls ≠ [] ∧
     ∀ msg, (remove_instance s m w instance_id).result ≠ .error (.valueError msg)) ∧
    ((get_logs s m w instance_id 100).2 ≠ [] ∧
     isOkE (get_logs s m w instance_id 100).1 = true) ∧
    (restart_instance s m w instance_id).calls ≠ [] := by
  refine ⟨?_, ⟨status_error_of_invalid m w hid, ?_⟩,
          ⟨stop_calls_ne s m w instance_id, ?_⟩,
          ⟨remove_calls_ne s m w instance_id, remove_no_valueError s m w instance_id⟩,
          ⟨logs_calls_ne s m w instance_id 100, logs_ok s m w instance_id 100⟩,
          restart_calls_ne s m w instance_id⟩
  · intro hda
    unfold start_instance
    rw [if_neg (by simp [hda]), if_pos hid]
    exact ⟨rfl, rfl⟩
  · unfold get_instance_status
    rw [get_instance_ports, if_pos hid]
  · intro hcm
    obtain ⟨mw, hs⟩ := stop_cli_result s m w instance_id hcm
    rw [hs]
    exact status_error_of_invalid _ _ hid

/-- C3 witness: the hypotheses of `C3_id_validation` discharged at the
out-of-range id 4 in CLI mode. -/
theorem C3_witness :
    (start_instance defaultSettings mgrCli w0 4).result =
      .error (.valueError (invalidIdMsg defaultSettings)) ∧
    (stop_instance defaultSettings mgrCli w0 4).result =
      .error (.valueError (invalidIdMsg defaultSettings)) :=
  ⟨((C3_id_validation defaultSettings mgrCli w0 4 (by decide)).1 rfl).1,
   (C3_id_validation defaultSettings mgrCli w0 4 (by decide)).2.2.1.2 rfl⟩

theorem status_client_found {s : Settings} {w : World} {instance_id : Int} {c : ClientContainer}
    (m : Manager) (hcm : m.clientMode = true)
    (hval : ¬(instance_id < 0 ∨ instance_id ≥ s.max_instances))
    (hfind : clientFind w.cl (get_container_name instance_id) = some c) :
    get_instance_status s m w instance_id =
      (.ok ⟨instance_id, c.status, portsOf s instance_id, webrtcUrl (portsOf s instance_id),
            some (pyTake c.cid 12), some c.created⟩,
       [Call.clientGet (get_container_name instance_id),
        Call.clientReload (get_container_name instance_id)]) := by
  unfold get_instance_status
  rw [get_instance_ports_ok hval]
  dsimp only
  rw [if_neg (by simp [hcm]), hfind]

theorem status_client_absent {s : Settings} {w : World} {instance_id : Int}
    (m : Manager) (hcm : m.clientMode = true)
    (hval : ¬(instance_id < 0 ∨ instance_id ≥ s.max_instances))
    (hfind : clientFind w.cl (get_container_name instance_id) = none) :
    get_instance_status s m w instance_id =
      (.ok ⟨instance_id, "not_created", portsOf s instance_id, webrtcUrl (portsOf s instance_id),
            none, none⟩,
       [Call.clientGet (get_container_name instance_id)]) := by
  unfold get_instance_status
  rw [get_instance_ports_ok hval]
  dsimp only
  rw [if_neg (by simp [hcm]), hfind]

theorem status_cli_absent {s : Settings} {w : World} {instance_id : Int}
    (m : Manager) (hcm : m.clientMode = false)
    (hval : ¬(instance_id < 0 ∨ instance_id ≥ s.max_instances))
    (hex : (container_exists w.cli (get_container_name instance_id)).1 = false) :
    get_instance_status s m w instance_id =
      (.ok ⟨instance_id, "not_created", portsOf s instance_id, webrtcUrl (portsOf s instance_id),
            none, none⟩,
       (container_exists w.cli (get_container_name instance_id)).2) := by
  unfold get_instance_status
  rw [get_instance_ports_ok hval]
  dsimp only
  rw [if_pos hcm, hex]
  simp

/-- The canonical CLI world in which the instance's container exists (exact
name) and is running. -/
def wCliRunning (instance_id : Int) : World :=
  ⟨⟨[⟨get_container_name instance_id, "Up 5 minutes", "abc123def456", "2024-01-01"⟩],
    .ok "", "f", "f"⟩, emptyClient, "/root"⟩

theorem psFilter_singleton {eng : CliEngine} {name : String} {c : CliContainer}
    (hw : eng.containers = [c]) (hn : c.name = name) :
    psFilterNames eng name = [c] := by
  unfold psFilterNames
  rw [hw]
  have h : strContains c.name name = true := by rw [hn]; exact strContains_self name
  simp [List.filter, h]

theorem exists_singleton {eng : CliEngine} {name : String} {c : CliContainer}
    (hw : eng.containers = [c]) (hn : c.name = name) :
    (container_exists eng name).1 = true := by
  unfold container_exists
  rw [psFilter_singleton hw hn]
  dsimp only
  simp only [List.map_cons, List.map_nil]
  rw [unlines_singleton, hn]
  exact strContains_append_right _ "\n"

theorem statusq_singleton {eng : CliEngine} {name : String} {c : CliContainer}
    (hw : eng.containers = [c]) (hn : c.name = name) :
    (get_container_status eng name).1 =
      if pyStrip (c.statusLine ++ "\n") ≠ "" then
        some (pyLower (firstToken (pyStrip (c.statusLine ++ "\n"))))
      else none := by
  unfold get_container_status
  rw [psFilter_singleton hw hn]
  dsimp only
  simp only [List.map_cons, List.map_nil, unlines_singleton]

theorem psIds_singleton {eng : CliEngine} {name : String} {c : CliContainer}
    (hw : eng.containers = [c]) (hn : c.name = name) :
    (cliPsIds eng name).1 = c.cid ++ "\n" := by
  unfold cliPsIds
  rw [psFilter_singleton hw hn]
  dsimp only
  simp only [List.map_cons, List.map_nil]
  exact unlines_singleton _

theorem inspect_singleton {eng : CliEngine} {name : String} {c : CliContainer}
    (hw : eng.containers = [c]) (hn : c.name = name) :
    (cliInspectCreated eng name).1 = ⟨0, c.created ++ "\n", ""⟩ := by
  unfold cliInspectCreated
  rw [hw]
  simp [List.find?, hn]

theorem status_cli_singleton (s : Settings) (m : Manager) (w : World) {instance_id : Int}
    {c : CliContainer}
    (hcm : m.clientMode = false)
    (hval : ¬(instance_id < 0 ∨ instance_id ≥ s.max_instances))
    (hw : w.cli.containers = [c]) (hn : c.name = get_container_name instance_id) :
    (get_instance_status s m w instance_id).1 =
      .ok ⟨instance_id,
           if pyStrip (c.statusLine ++ "\n") ≠ "" then
             pyLower (firstToken (pyStrip (c.statusLine ++ "\n")))
           else "unknown",
           portsOf s instance_id, webrtcUrl (portsOf s instance_id),
           some (if pyStrip (c.cid ++ "\n") ≠ "" then pyTake (pyStrip (c.cid ++ "\n")) 12 else ""),
           some (pyStrip (c.created ++ "\n"))⟩ := by
  unfold get_instance_status
  rw [get_instance_ports_ok hval]
  dsimp only
  rw [if_pos hcm, exists_singleton hw hn, if_neg (show ¬(true = false) by simp)]
  rw [statusq_singleton hw hn, psIds_singleton hw hn, inspect_singleton hw hn]
  repeat' split
  all_goals first
    | rfl
    | (exfalso; simp_all)

theorem status_calls_nocreate (s : Settings) (m : Manager) (w : World) (instance_id : Int) :
    ((get_instance_status s m w instance_id).2).all (fun cl => !cl.isCreation) = true := by
  unfold get_instance_status
  split
  · rfl
  · dsimp only
    split
    · split
      · rfl
      · rfl
    · split
      · rfl
      · rfl

/-- C6: the safe no-ops are idempotent, in both engine modes.  For every valid
id: `start_instance` on an instance whose container is already running returns
a running status record (`"running"` from the structured client, the CLI
rendering `"up"` in fallback mode) and issues no container-creation engine
call; `stop_instance` on an absent container returns the `not_created` status
record without raising and without any stop/remove engine call; and
`remove_instance` on an absent container returns the `not_found` result
without raising and without any stop/remove engine call. -/
theorem C6_idempotent_noops (s : Settings) (instance_id : Int)
    (h0 : 0 ≤ instance_id) (h1 : instance_id < s.max_instances) :
    (∀ (w : World) (cache : List (Int × String)) (c : ClientContainer),
        clientFind w.cl (get_container_name instance_id) = some c → c.status = "running" →
        (start_instance s ⟨true, true, cache⟩ w instance_id).result =
          .ok ⟨instance_id, "running", portsOf s instance_id,
               webrtcUrl (portsOf s instance_id), some (pyTake c.cid 12), some c.created⟩ ∧
        ((start_instance s ⟨true, true, cache⟩ w instance_id).calls).all
          (fun cl => !cl.isCreation) = true) ∧
    (∀ cache : List (Int × String),
        (start_instance s ⟨true, false, cache⟩ (wCliRunning instance_id) instance_id).result =
          .ok ⟨instance_id, "up", portsOf s instance_id, webrtcUrl (portsOf s instance_id),
               some "abc123def456", some "2024-01-01"⟩ ∧
        ((start_instance s ⟨true, false, cache⟩ (wCliRunning instance_id) instance_id).calls).all
          (fun cl => !cl.isCreation) = true) ∧
    (∀ (w : World) (cache : List (Int × String)),
        (container_exists w.cli (get_container_name instance_id)).1 = false →
        (stop_instance s ⟨true, false, cache⟩ w instance_id).result =
          .ok ⟨instance_id, "not_created", portsOf s instance_id,
               webrtcUrl (portsOf s instance_id), none, none⟩ ∧
        ((stop_instance s ⟨true, false, cache⟩ w instance_id).calls).all
          (fun cl => !cl.isStopOrRemove) = true) ∧
    (∀ (w : World) (cache : List (Int × String)),
        clientFind w.cl (get_container_name instance_id) = none →
        (stop_instance s ⟨true, true, cache⟩ w instance_id).result =
          .ok ⟨instance_id, "not_created", portsOf s instance_id,
               webrtcUrl (portsOf s instance_id), none, none⟩ ∧
        ((stop_instance s ⟨true, true, cache⟩ w instance_id).calls).all
          (fun cl => !cl.isStopOrRemove) = true) ∧
    (∀ (w : World) (cache : List (Int × String)),
        (container_exists w.cli (get_container_name instance_id)).1 = false →
        (remove_instance s ⟨true, false, cache⟩ w instance_id).result =
          .ok ⟨"not_found", instance_id⟩ ∧
        ((remove_instance s ⟨true, false, cache⟩ w instance_id).calls).all
          (fun cl => !cl.isStopOrRemove) = true) ∧
    (∀ (w : World) (cache : List (Int × String)),
        clientFind w.cl (get_container_name instance_id) = none →
        (remove_instance s ⟨true, true, cache⟩ w instance_id).result =
          .ok ⟨"not_found", instance_id⟩ ∧
        ((remove_instance s ⟨true, true, cache⟩ w instance_id).calls).all
          (fun cl => !cl.isStopOrRemove) = true) := by
  have hval : ¬(instance_id < 0 ∨ instance_id ≥ s.max_instances) := by omega
  refine ⟨?_, ?_, ?_, ?_, ?_, ?_⟩
  · -- client mode: start on a running container
    intro w cache c hfind hst
    unfold start_instance
    rw [if_neg (by simp), if_neg hval]
    dsimp only
    rw [if_neg (by simp), hfind]
    dsimp only
    rw [if_pos (by simp [hst])]
    rw [status_client_found _ rfl hval hfind]
    exact ⟨by dsimp only; rw [hst], rfl⟩
  · -- CLI mode: start on the canonical running container
    intro cache
    have hw : (wCliRunning instance_id).cli.containers =
        [⟨get_container_name instance_id, "Up 5 minutes", "abc123def456", "2024-01-01"⟩] := rfl
    have hn : (CliContainer.mk (get_container_name instance_id)
        "Up 5 minutes" "abc123def456" "2024-01-01").name = get_container_name instance_id := rfl
    have hstq : (get_container_status (wCliRunning instance_id).cli
        (get_container_name instance_id)).1 = some "up" := by
      rw [statusq_singleton hw hn]; dsimp only; decide
    have hstart : cliStartCmd (wCliRunning instance_id).cli (get_container_name instance_id) =
        .ok ⟨[⟨get_container_name instance_id, upLine, "abc123def456", "2024-01-01"⟩],
             .ok "", "f", "f"⟩ := by
      unfold cliStartCmd wCliRunning
      simp
    unfold start_instance
    rw [if_neg (by simp), if_neg hval]
    dsimp only
    rw [if_pos rfl, exists_singleton hw hn, if_pos rfl, hstq]
    dsimp only
    rw [if_neg (by decide), hstart]
    dsimp only
    constructor
    · have heq := status_cli_singleton s (⟨true, false, cache⟩ : Manager)
        (⟨⟨[⟨get_container_name instance_id, upLine, "abc123def456", "2024-01-01"⟩],
           .ok "", "f", "f"⟩, (wCliRunning instance_id).cl, (wCliRunning instance_id).homeDir⟩)
        rfl hval rfl rfl
      rw [heq]
      rfl
    · have hsc := status_calls_nocreate s (⟨true, false, cache⟩ : Manager)
        (⟨⟨[⟨get_container_name instance_id, upLine, "abc123def456", "2024-01-01"⟩],
           .ok "", "f", "f"⟩, (wCliRunning instance_id).cl, (wCliRunning instance_id).homeDir⟩)
        instance_id
      simp only [List.all_append, Bool.and_eq_true]
      exact ⟨⟨⟨rfl, rfl⟩, rfl⟩, hsc⟩
  · -- CLI mode: stop on an absent container
    intro w cache hex
    unfold stop_instance
    dsimp only
    rw [if_pos rfl, hex, if_pos rfl, status_cli_absent _ rfl hval hex]
    exact ⟨rfl, rfl⟩
  · -- client mode: stop on an absent container
    intro w cache hfind
    unfold stop_instance
    dsimp only
    rw [if_neg (by simp), hfind]
    dsimp only
    rw [status_client_absent _ rfl hval hfind]
    exact ⟨rfl, rfl⟩
  · -- CLI mode: remove on an absent container
    intro w cache hex
    unfold remove_instance
    dsimp only
    rw [if_pos rfl, hex, if_pos rfl]
    exact ⟨rfl, rfl⟩
  · -- client mode: remove on an absent container
    intro w cache hfind
    unfold remove_instance
    dsimp only
    rw [if_neg (by simp), hfind]
    exact ⟨rfl, rfl⟩

/-- C6 witness: the hypotheses of `C6_idempotent_noops` discharged at
instance 0 — a client engine holding it running, and empty engines for the
absent cases. -/
theorem C6_witness :
    (start_instance defaultSettings ⟨true, true, []⟩ wClientRun0 0).result =
      .ok ⟨0, "running", portsOf defaultSettings 0, webrtcUrl (portsOf defaultSettings 0),
           some (pyTake "abcdef1234567890" 12), some "2024-01-01"⟩ ∧
    (stop_instance defaultSettings ⟨true, false, []⟩ w0 0).result =
      .ok ⟨0, "not_created", portsOf defaultSettings 0, webrtcUrl (portsOf defaultSettings 0),
           none, none⟩ ∧
    (remove_instance defaultSettings ⟨true, true, []⟩ w0 0).result = .ok ⟨"not_found", 0⟩ :=
  ⟨((C6_idempotent_noops defaultSettings 0 (by decide) (by decide)).1 wClientRun0 []
      ⟨"isaac-sim-instance-0", "running", "abcdef1234567890", "2024-01-01", "log"⟩
      (by decide) rfl).1,
   ((C6_idempotent_noops defaultSettings 0 (by decide) (by decide)).2.2.1 w0 [] (by decide)).1,
   ((C6_idempotent_noops defaultSettings 0 (by decide) (by decide)).2.2.2.2.2 w0 [] (by decide)).1⟩

end Orch
